import Mathlib

/-!
Verification of the newsletter sender in `marketing/maketing.py`.

The script reads an HTML template from disk (`read_html_template`), builds a
multi-part message and pushes it through an SMTP session (`send_newsletter`),
and iterates this over a static recipient list, tallying successes and
failures (`main`).

The embedding models the external world (the template file and the SMTP
relay) as an environment oracle: each filesystem or network step either
succeeds or raises a Python exception chosen by the environment.  Every
Python function becomes a total Lean function over that oracle; the module
globals become a `Config` record threaded through the batch loop.  Each
send attempt records an observable trace: whether a connection was
attempted and opened, whether the session close step (`server.quit()`) was
invoked, the constructed message with its MIME parts, and the failure
reason corresponding to the `except` branch taken.
-/

namespace Marketing

/-- The module-level configuration of `maketing.py` (lines 6-13):
sender address, app password, recipient list, subject, display name. -/
structure Config where
  email : String
  password : String
  emailList : List String
  subject : String
  from_name : String
deriving DecidableEq

/-- The literal values of the module-level constants in the source. -/
def defaultConfig : Config :=
  { email := "powerofseller1234@gmail.com"
    password := "xhgy udea ousf kzlm"
    emailList := ["ankit.k.j1999@gmail.com", "ankit.kumar@zalon.in"]
    subject := "AI Study Newsletter - Discover AI-Powered Learning"
    from_name := "AI Study Team" }

/-- Python exceptions the modelled operations can raise.  All four derive
from `Exception` in Python (so the catch-all `except Exception` handler
catches each of them); `smtpAuthError` models `smtplib.SMTPAuthenticationError`,
`smtpOther` any other `smtplib.SMTPException`, `unicodeDecodeError` the
`UnicodeDecodeError` a non-UTF-8 template raises, `otherExc` anything else. -/
inductive PyExc
  | smtpAuthError
  | smtpOther
  | unicodeDecodeError
  | otherExc
deriving DecidableEq

/-- The state of the template file on disk, as the environment presents it:
present with given contents, absent, or present but not UTF-8 decodable. -/
inductive TemplateResult
  | content (s : String)
  | fileNotFound
  | decodeError
deriving DecidableEq

/-- `read_html_template` (lines 15-25): returns the file contents, returns
`None` when the file is absent (`except FileNotFoundError`), and lets any
other error — in particular a decode error — propagate. -/
def read_html_template : TemplateResult → Except PyExc (Option String)
  | .content s => .ok (some s)
  | .fileNotFound => .ok none
  | .decodeError => .error .unicodeDecodeError

/-- One SMTP session as the relay presents it: for each step, `none` means
the step succeeds, `some e` means the step raises `e`. -/
structure Transport where
  connect : Option PyExc
  starttls : Option PyExc
  login : Option PyExc
  send : Option PyExc
  quit : Option PyExc
deriving DecidableEq

/-- The failure taxonomy, one constructor per way `send_newsletter` returns
`False`: the early `return False` when the template is unavailable (line 39),
and the three `except` branches (lines 91-99). -/
inductive FailReason
  | templateUnavailable
  | authentication
  | smtpError
  | unexpected
deriving DecidableEq

/-- One MIME body part: its text content and subtype (`plain` or `html`). -/
structure MimePart where
  content : String
  subtype : String
deriving DecidableEq

/-- The constructed `MIMEMultipart` message: header fields and body parts. -/
structure Msg where
  from_addr : String
  to_addr : String
  subject : String
  parts : List MimePart
deriving DecidableEq

/-- The static plain-text fallback body (lines 42-63), verbatim. -/
def text_content : String :=
  "\n        AI Study Newsletter\n        \n        Discover AI Study - Transform Learning with AI\n        \n        We\x27re excited to introduce AI Study, a revolutionary platform that helps educators \n        and professionals create comprehensive learning materials in minutes.\n        \n        Features:\n        - AI-Powered Generation\n        - Multiple Course Formats\n        - Smart Flash Cards\n        - Study Guides\n        - Interactive Quizzes\n        - AI Teacher Chat\n        - 23+ Languages Support\n        - PWA & Offline Access\n        \n        Visit us to learn more!\n        \n        Contact: hello@aistudy.com\n        "

/-- Python falsiness of the template-read result, as tested by
`if not html_content:` (line 38): `None` and the empty string are falsy. -/
def pyFalsy : Option String → Bool
  | none => true
  | some s => s == ""

/-- The observable record of one send attempt. -/
structure Attempt where
  success : Bool
  reason : Option FailReason
  msg : Option Msg
  connectAttempted : Bool
  connectOpened : Bool
  closed : Bool
deriving DecidableEq

/-- The message right after the header fields are set (lines 31-34),
before any body part is attached. -/
def headerMsg (cfg : Config) (recipient : String) : Msg :=
  { from_addr := cfg.from_name ++ " <" ++ cfg.email ++ ">"
    to_addr := recipient
    subject := cfg.subject
    parts := [] }

/-- The message after both parts are attached (lines 66-70): the static
plain-text part first, then the HTML part. -/
def fullMsg (cfg : Config) (recipient html : String) : Msg :=
  { headerMsg cfg recipient with
    parts := [{ content := text_content, subtype := "plain" },
              { content := html, subtype := "html" }] }

/-- The `try` block of `send_newsletter` (lines 29-89): build the message,
read the template, bail out if it is falsy, attach parts, then run the
SMTP steps in order, stopping at the first step that raises.  Returns the
attempt trace so far together with the exception, if one was raised. -/
def run_try (cfg : Config) (tmpl : TemplateResult) (tr : Transport)
    (recipient : String) : Attempt × Option PyExc :=
  match read_html_template tmpl with
  | .error e =>
    ({ success := false, reason := none, msg := some (headerMsg cfg recipient),
       connectAttempted := false, connectOpened := false, closed := false }, some e)
  | .ok html_content =>
    if pyFalsy html_content then
      ({ success := false, reason := some .templateUnavailable,
         msg := some (headerMsg cfg recipient),
         connectAttempted := false, connectOpened := false, closed := false }, none)
    else
      let msg := fullMsg cfg recipient (html_content.getD "")
      match tr.connect with
      | some e =>
        ({ success := false, reason := none, msg := some msg,
           connectAttempted := true, connectOpened := false, closed := false }, some e)
      | none =>
        match tr.starttls with
        | some e =>
          ({ success := false, reason := none, msg := some msg,
             connectAttempted := true, connectOpened := true, closed := false }, some e)
        | none =>
          match tr.login with
          | some e =>
            ({ success := false, reason := none, msg := some msg,
               connectAttempted := true, connectOpened := true, closed := false }, some e)
          | none =>
            match tr.send with
            | some e =>
              ({ success := false, reason := none, msg := some msg,
                 connectAttempted := true, connectOpened := true, closed := false }, some e)
            | none =>
              match tr.quit with
              | some e =>
                ({ success := false, reason := none, msg := some msg,
                   connectAttempted := true, connectOpened := true, closed := true }, some e)
              | none =>
                ({ success := true, reason := none, msg := some msg,
                   connectAttempted := true, connectOpened := true, closed := true }, none)

/-- The `except` chain of `send_newsletter` (lines 91-99), in source order:
`SMTPAuthenticationError` first, then `SMTPException`, then the catch-all
`except Exception`.  Each branch returns `False` with the printed reason. -/
def dispatch (a : Attempt) : Option PyExc → Attempt
  | none => a
  | some .smtpAuthError => { a with success := false, reason := some .authentication }
  | some .smtpOther => { a with success := false, reason := some .smtpError }
  | some .unicodeDecodeError => { a with success := false, reason := some .unexpected }
  | some .otherExc => { a with success := false, reason := some .unexpected }

/-- `send_newsletter` (lines 27-99): the `try` block wrapped in the
`except` chain.  Total: every modelled exception is handled. -/
def send_newsletter (cfg : Config) (tmpl : TemplateResult) (tr : Transport)
    (recipient : String) : Attempt :=
  let p := run_try cfg tmpl tr recipient
  dispatch p.1 p.2

/-- The external world for one run: the template file state (fixed for the
run) and, for each successive attempt, the relay's behaviour. -/
structure Env where
  template : TemplateResult
  transport : Nat → Transport

/-- The `for recipient in emailList` loop body (lines 115-120), threading
the module state: one `send_newsletter` call per element, in list order.
Returns the attempts in order together with the final module state. -/
def runBatch (env : Env) (st : Config) :
    List String → Nat → List (String × Attempt) × Config
  | [], _ => ([], st)
  | r :: rs, i =>
    let o := send_newsletter st env.template (env.transport i) r
    let rest := runBatch env st rs (i + 1)
    ((r, o) :: rest.1, rest.2)

/-- The counter updates of the loop: `success_count += 1` on `True`,
`fail_count += 1` on `False`. -/
def tally : List (String × Attempt) → Nat × Nat
  | [] => (0, 0)
  | p :: rest =>
    let t := tally rest
    if p.2.success then (t.1 + 1, t.2) else (t.1, t.2 + 1)

/-- The observable result of `main`: final counters, the per-recipient
attempt trace in order, and the printed final summary (lines 122-126). -/
structure MainResult where
  success_count : Nat
  fail_count : Nat
  attempts : List (String × Attempt)
  summary : Option (Nat × Nat)

/-- `main` (lines 101-126): run the batch over the configured recipient
list, then print the summary.  Also returns the final module state. -/
def main (cfg : Config) (env : Env) : MainResult × Config :=
  let b := runBatch env cfg cfg.emailList 0
  let t := tally b.1
  ({ success_count := t.1, fail_count := t.2, attempts := b.1,
     summary := some (t.1, t.2) }, b.2)

/-! ### Concrete environments used as witnesses -/

/-- A relay on which every step succeeds. -/
def trOk : Transport := ⟨none, none, none, none, none⟩

/-- A relay that rejects the login credentials on every session. -/
def trAuthRej : Transport := ⟨none, none, some .smtpAuthError, none, none⟩

/-! ### Helper lemmas -/

/-- `dispatch` never touches the attempt trace fields, only `success` and
`reason`. -/
theorem dispatch_msg (a : Attempt) (e : Option PyExc) :
    (dispatch a e).msg = a.msg := by
  cases e with
  | none => rfl
  | some ex => cases ex <;> rfl

theorem dispatch_connectAttempted (a : Attempt) (e : Option PyExc) :
    (dispatch a e).connectAttempted = a.connectAttempted := by
  cases e with
  | none => rfl
  | some ex => cases ex <;> rfl

theorem dispatch_connectOpened (a : Attempt) (e : Option PyExc) :
    (dispatch a e).connectOpened = a.connectOpened := by
  cases e with
  | none => rfl
  | some ex => cases ex <;> rfl

theorem dispatch_closed (a : Attempt) (e : Option PyExc) :
    (dispatch a e).closed = a.closed := by
  cases e with
  | none => rfl
  | some ex => cases ex <;> rfl

/-- Every raised exception is converted by the `except` chain into a
failure outcome with a definite reason. -/
theorem dispatch_some (a : Attempt) (ex : PyExc) :
    (dispatch a (some ex)).success = false ∧
      ((dispatch a (some ex)).reason).isSome = true := by
  cases ex <;> exact ⟨rfl, rfl⟩

/-- The batch loop never writes the module state: the state out is the
state in.  (The source assigns no module-level name inside the loop.) -/
theorem runBatch_state (env : Env) (st : Config) (l : List String) (i : Nat) :
    (runBatch env st l i).2 = st := by
  induction l generalizing i with
  | nil => rfl
  | cons r rs ih => simpa [runBatch] using ih (i + 1)

/-- The batch loop produces exactly one attempt per list element, keyed by
the element, at its position: the trace is the enumerated input list mapped
through `send_newsletter`. -/
theorem runBatch_eq (env : Env) (st : Config) (l : List String) (i : Nat) :
    (runBatch env st l i).1 =
      (l.enumFrom i).map
        (fun p => (p.2, send_newsletter st env.template (env.transport p.1) p.2)) := by
  induction l generalizing i with
  | nil => rfl
  | cons r rs ih => simp [runBatch, List.enumFrom, ih (i + 1)]

/-- The recipients of the attempt trace are the input list, in order. -/
theorem runBatch_map_fst (env : Env) (st : Config) (l : List String) (i : Nat) :
    (runBatch env st l i).1.map Prod.fst = l := by
  induction l generalizing i with
  | nil => rfl
  | cons r rs ih => simp [runBatch, ih (i + 1)]

/-- Every attempt in the trace came from `send_newsletter` on its recipient. -/
theorem runBatch_mem (env : Env) (st : Config) (l : List String) (i : Nat)
    (p : String × Attempt) (hp : p ∈ (runBatch env st l i).1) :
    ∃ j, p.2 = send_newsletter st env.template (env.transport j) p.1 := by
  induction l generalizing i with
  | nil => simp [runBatch] at hp
  | cons r rs ih =>
    simp only [runBatch, List.mem_cons] at hp
    rcases hp with h | h
    · exact ⟨i, by rw [h]⟩
    · exact ih (i + 1) h

/-- The two counters sum to the number of attempts. -/
theorem tally_sum (l : List (String × Attempt)) :
    (tally l).1 + (tally l).2 = l.length := by
  induction l with
  | nil => rfl
  | cons p rest ih =>
    by_cases h : p.2.success = true
    · simp [tally, h, ← ih]; omega
    · simp [tally, h, ← ih]; omega

/-- When every attempt failed, the tally is `(0, length)`. -/
theorem tally_all_fail (l : List (String × Attempt))
    (h : ∀ p ∈ l, p.2.success = false) : tally l = (0, l.length) := by
  induction l with
  | nil => rfl
  | cons p rest ih =>
    have hp : p.2.success = false := h p (List.mem_cons_self p rest)
    have hrest := ih (fun q hq => h q (List.mem_cons_of_mem p hq))
    simp [tally, hp, hrest]

/-- The batch loop produces as many attempts as there are recipients. -/
theorem runBatch_length (env : Env) (st : Config) (l : List String) (i : Nat) :
    (runBatch env st l i).1.length = l.length := by
  induction l generalizing i with
  | nil => rfl
  | cons r rs ih => simp [runBatch, ih (i + 1)]

/-- A missing template makes `send_newsletter` return `False` before any
transport step, for every relay behaviour. -/
theorem send_fileNotFound (cfg : Config) (tr : Transport) (r : String) :
    send_newsletter cfg .fileNotFound tr r =
      { success := false, reason := some .templateUnavailable,
        msg := some (headerMsg cfg r),
        connectAttempted := false, connectOpened := false, closed := false } := rfl

/-- With a non-empty template and a relay that accepts the connection and
the upgrade but rejects the login, the attempt fails with the
authentication reason, the connection having been opened but never closed. -/
theorem send_authRejected (cfg : Config) (tr : Transport) (r s : String)
    (hs : ¬ s = "") (hc : tr.connect = none) (hu : tr.starttls = none)
    (hl : tr.login = some .smtpAuthError) :
    send_newsletter cfg (.content s) tr r =
      { success := false, reason := some .authentication,
        msg := some (fullMsg cfg r s),
        connectAttempted := true, connectOpened := true, closed := false } := by
  simp [send_newsletter, run_try, read_html_template, pyFalsy, hs, hc, hu, hl, dispatch]

/-- For a non-empty template, the message carried by the attempt is the
fully built one — both parts attached — whatever the relay then does. -/
theorem run_try_content_msg (cfg : Config) (tr : Transport) (r s : String)
    (hs : ¬ s = "") :
    (run_try cfg (.content s) tr r).1.msg = some (fullMsg cfg r s) := by
  rcases tr with ⟨c, u, lg, sd, q⟩
  cases c <;> cases u <;> cases lg <;> cases sd <;> cases q <;>
    simp [run_try, read_html_template, pyFalsy, hs]

/-- A `try` block that raised no exception ended either on the success
path or on the early template `return False`, which carries a reason. -/
theorem run_try_none_definite (cfg : Config) (tmpl : TemplateResult)
    (tr : Transport) (r : String) (h : (run_try cfg tmpl tr r).2 = none) :
    (run_try cfg tmpl tr r).1.success = true
      ∨ ((run_try cfg tmpl tr r).1.success = false
         ∧ ((run_try cfg tmpl tr r).1.reason).isSome = true) := by
  cases tmpl with
  | fileNotFound => right; exact ⟨rfl, rfl⟩
  | decodeError => simp [run_try, read_html_template] at h
  | content s =>
    by_cases hs : s = ""
    · subst hs; right; exact ⟨rfl, rfl⟩
    · rcases tr with ⟨c, u, lg, sd, q⟩
      cases c with
      | some e => simp [run_try, read_html_template, pyFalsy, hs] at h
      | none =>
      cases u with
      | some e => simp [run_try, read_html_template, pyFalsy, hs] at h
      | none =>
      cases lg with
      | some e => simp [run_try, read_html_template, pyFalsy, hs] at h
      | none =>
      cases sd with
      | some e => simp [run_try, read_html_template, pyFalsy, hs] at h
      | none =>
      cases q with
      | some e => simp [run_try, read_html_template, pyFalsy, hs] at h
      | none => left; simp [run_try, read_html_template, pyFalsy, hs]

/-- Every send attempt ends definitely: success, or failure with a reason. -/
theorem send_newsletter_definite (cfg : Config) (tmpl : TemplateResult)
    (tr : Transport) (r : String) :
    (send_newsletter cfg tmpl tr r).success = true
      ∨ ((send_newsletter cfg tmpl tr r).success = false
         ∧ ((send_newsletter cfg tmpl tr r).reason).isSome = true) := by
  cases he : (run_try cfg tmpl tr r).2 with
  | some ex =>
    have hs : send_newsletter cfg tmpl tr r
        = dispatch (run_try cfg tmpl tr r).1 (some ex) := by
      simp [send_newsletter, he]
    rw [hs]
    right
    exact dispatch_some _ ex
  | none =>
    have hd : send_newsletter cfg tmpl tr r = (run_try cfg tmpl tr r).1 := by
      simp [send_newsletter, he, dispatch]
    rw [hd]
    exact run_try_none_definite cfg tmpl tr r he

/-! ### Concrete instances for witnesses and counterexamples -/

/-- The default configuration with a single-recipient list. -/
def cfgOne : Config := { defaultConfig with emailList := ["a@x.com"] }

/-- The default configuration with a two-recipient list. -/
def cfgTwo : Config := { defaultConfig with emailList := ["a@x.com", "b@x.com"] }

/-- An environment where the template file is absent and the relay would
accept everything. -/
def envMissing : Env := ⟨.fileNotFound, fun _ => trOk⟩

/-- An environment with a present template and a relay that rejects the
login on every session. -/
def envAuth : Env := ⟨.content "<h1>AI Study</h1>", fun _ => trAuthRej⟩

/-! ### The claims -/

/-- C1: for every configuration (hence every recipient list) and every
environment, each recipient of the input list appears exactly once, in
order, in the attempt trace of `main`; the two counters sum to the length
of the list; the printed summary reports exactly those counters; and on
the empty recipient list both counters are `0` and the summary is still
printed. -/
theorem claim_run_invariant (cfg : Config) (env : Env) :
    (main cfg env).1.success_count + (main cfg env).1.fail_count
        = cfg.emailList.length
    ∧ (main cfg env).1.attempts.map Prod.fst = cfg.emailList
    ∧ (main cfg env).1.summary
        = some ((main cfg env).1.success_count, (main cfg env).1.fail_count)
    ∧ (main { cfg with emailList := [] } env).1.success_count = 0
    ∧ (main { cfg with emailList := [] } env).1.fail_count = 0
    ∧ (main { cfg with emailList := [] } env).1.summary = some (0, 0) := by
  refine ⟨?_, ?_, rfl, rfl, rfl, rfl⟩
  · show (tally (runBatch env cfg cfg.emailList 0).1).1
        + (tally (runBatch env cfg cfg.emailList 0).1).2 = cfg.emailList.length
    rw [tally_sum, runBatch_length]
  · exact runBatch_map_fst env cfg cfg.emailList 0

/-- C2: when the template file is missing, every recipient's attempt fails
before any transport connection is attempted, so `fail_count` is the list
length, `success_count` is `0`, and no attempt ever tried to connect. -/
theorem claim_missing_template_fails_all (cfg : Config) (env : Env)
    (h : env.template = .fileNotFound) :
    (main cfg env).1.fail_count = cfg.emailList.length
    ∧ (main cfg env).1.success_count = 0
    ∧ ∀ p ∈ (main cfg env).1.attempts,
        p.2.success = false ∧ p.2.connectAttempted = false := by
  have hmem : ∀ p ∈ (runBatch env cfg cfg.emailList 0).1,
      p.2.success = false ∧ p.2.connectAttempted = false := by
    intro p hp
    obtain ⟨j, hj⟩ := runBatch_mem env cfg cfg.emailList 0 p hp
    rw [hj, h, send_fileNotFound]
    exact ⟨rfl, rfl⟩
  have htally := tally_all_fail _ (fun p hp => (hmem p hp).1)
  refine ⟨?_, ?_, hmem⟩
  · show (tally (runBatch env cfg cfg.emailList 0).1).2 = cfg.emailList.length
    rw [htally, runBatch_length]
  · show (tally (runBatch env cfg cfg.emailList 0).1).1 = 0
    rw [htally]

/-- Witness for C2: one recipient, template absent — one failure, no
success. -/
theorem claim_missing_template_fails_all_witness :
    (main cfgOne envMissing).1.fail_count = 1
    ∧ (main cfgOne envMissing).1.success_count = 0 := by
  have h := claim_missing_template_fails_all cfgOne envMissing rfl
  exact ⟨h.1, h.2.1⟩

/-- C3: when the relay rejects the login of every session (and the
template is present and non-empty, and connect and upgrade succeed), every
recipient's attempt fails with the authentication reason specifically, the
run still visits every recipient in order, and the final counters are
`(0, length)`. -/
theorem claim_auth_rejected_fails_all (cfg : Config) (env : Env) (s : String)
    (ht : env.template = .content s) (hs : ¬ s = "")
    (hc : ∀ i, (env.transport i).connect = none)
    (hu : ∀ i, (env.transport i).starttls = none)
    (hl : ∀ i, (env.transport i).login = some .smtpAuthError) :
    (main cfg env).1.fail_count = cfg.emailList.length
    ∧ (main cfg env).1.success_count = 0
    ∧ (main cfg env).1.attempts.map Prod.fst = cfg.emailList
    ∧ ∀ p ∈ (main cfg env).1.attempts,
        p.2.success = false ∧ p.2.reason = some .authentication := by
  have hmem : ∀ p ∈ (runBatch env cfg cfg.emailList 0).1,
      p.2.success = false ∧ p.2.reason = some .authentication := by
    intro p hp
    obtain ⟨j, hj⟩ := runBatch_mem env cfg cfg.emailList 0 p hp
    rw [hj, ht, send_authRejected cfg (env.transport j) p.1 s hs (hc j) (hu j) (hl j)]
    exact ⟨rfl, rfl⟩
  have htally := tally_all_fail _ (fun p hp => (hmem p hp).1)
  refine ⟨?_, ?_, runBatch_map_fst env cfg cfg.emailList 0, hmem⟩
  · show (tally (runBatch env cfg cfg.emailList 0).1).2 = cfg.emailList.length
    rw [htally, runBatch_length]
  · show (tally (runBatch env cfg cfg.emailList 0).1).1 = 0
    rw [htally]

/-- Witness for C3: two recipients, relay rejects every login — two
authentication failures, no success. -/
theorem claim_auth_rejected_fails_all_witness :
    (main cfgTwo envAuth).1.fail_count = 2
    ∧ (main cfgTwo envAuth).1.success_count = 0
    ∧ ∀ p ∈ (main cfgTwo envAuth).1.attempts,
        p.2.reason = some FailReason.authentication := by
  have h := claim_auth_rejected_fails_all cfgTwo envAuth "<h1>AI Study</h1>"
    rfl (by decide) (fun _ => rfl) (fun _ => rfl) (fun _ => rfl)
  exact ⟨h.1, h.2.1, fun p hp => (h.2.2.2 p hp).2⟩

/-- Counterexample to C4: with the template present and a relay that opens
the connection and upgrades it but rejects the login, the connection is
opened yet the close step (`server.quit()`) is never performed — the
`except` branch returns without closing the session. -/
theorem claim_close_counterexample :
    (send_newsletter defaultConfig (.content "<h1>AI Study</h1>")
        trAuthRej "a@x.com").connectOpened = true
    ∧ (send_newsletter defaultConfig (.content "<h1>AI Study</h1>")
        trAuthRej "a@x.com").closed = false := by
  decide

/-- C4 as amended: the close step is invoked exactly on the success path —
when the template read yields non-empty content and the connect, upgrade,
login and transmit steps all succeed.  When any of those steps fails, the
exception jumps straight to the handler and the session is abandoned
without a close. -/
theorem claim_close_iff_success_path (cfg : Config) (tmpl : TemplateResult)
    (tr : Transport) (r : String) :
    (send_newsletter cfg tmpl tr r).closed = true
    ↔ ((∃ s, tmpl = .content s ∧ ¬ s = "")
       ∧ tr.connect = none ∧ tr.starttls = none
       ∧ tr.login = none ∧ tr.send = none) := by
  cases tmpl with
  | fileNotFound =>
    simp [send_newsletter, run_try, read_html_template, pyFalsy, dispatch_closed]
  | decodeError =>
    simp [send_newsletter, run_try, read_html_template, pyFalsy, dispatch_closed]
  | content s =>
    rcases tr with ⟨c, u, lg, sd, q⟩
    by_cases hs : s = ""
    · subst hs
      simp [send_newsletter, run_try, read_html_template, pyFalsy, dispatch_closed]
    · cases c <;> cases u <;> cases lg <;> cases sd <;> cases q <;>
        simp [send_newsletter, run_try, read_html_template, pyFalsy,
          dispatch_closed, hs]

/-- C5: whenever the body parts are attached (the template is present and
non-empty), the constructed message carries exactly two parts: a plain-text
part whose content is the fixed static literal `text_content` — for every
configuration, relay, recipient and template content — followed by the
HTML part holding the template contents. -/
theorem claim_plain_text_static (cfg : Config) (tr : Transport) (r s : String)
    (hs : ¬ s = "") :
    ∃ m, (send_newsletter cfg (.content s) tr r).msg = some m
      ∧ m.parts = [{ content := text_content, subtype := "plain" },
                   { content := s, subtype := "html" }] := by
  refine ⟨fullMsg cfg r s, ?_, rfl⟩
  have h1 : (send_newsletter cfg (.content s) tr r).msg
      = (run_try cfg (.content s) tr r).1.msg := dispatch_msg _ _
  rw [h1, run_try_content_msg cfg tr r s hs]

/-- Witness for C5: a concrete template, relay, and recipient. -/
theorem claim_plain_text_static_witness :
    ∃ m, (send_newsletter defaultConfig (.content "<h1>AI Study</h1>")
            trOk "a@x.com").msg = some m
      ∧ m.parts = [{ content := text_content, subtype := "plain" },
                   { content := "<h1>AI Study</h1>", subtype := "html" }] :=
  claim_plain_text_static defaultConfig trOk "a@x.com" "<h1>AI Study</h1>"
    (by decide)

/-- C6: the batch runner's attempt trace is exactly the enumerated input
list mapped through the single-send operation: one invocation per element,
at its position, in list order — so no reordering, no deduplication, and a
duplicated address is attempted at each of its positions. -/
theorem claim_recipients_in_order (cfg : Config) (env : Env) :
    (main cfg env).1.attempts
      = (cfg.emailList.enumFrom 0).map
          (fun p => (p.2, send_newsletter cfg env.template (env.transport p.1) p.2))
    ∧ (main cfg env).1.attempts.map Prod.fst = cfg.emailList := by
  exact ⟨runBatch_eq env cfg cfg.emailList 0, runBatch_map_fst env cfg cfg.emailList 0⟩

/-- C7: for every behaviour of the template read and of every transport
step — including any raised exception — the single send is total: it ends
in success, or in failure with a definite reason, never in a propagated
exception; hence the batch visits every recipient and `main` always
reaches the printed summary. -/
theorem claim_send_total (cfg : Config) (tmpl : TemplateResult)
    (tr : Transport) (r : String) (env : Env) :
    ((send_newsletter cfg tmpl tr r).success = true
      ∨ ((send_newsletter cfg tmpl tr r).success = false
         ∧ ((send_newsletter cfg tmpl tr r).reason).isSome = true))
    ∧ (main cfg env).1.summary
        = some ((main cfg env).1.success_count, (main cfg env).1.fail_count)
    ∧ (main cfg env).1.attempts.length = cfg.emailList.length := by
  refine ⟨send_newsletter_definite cfg tmpl tr r, rfl, ?_⟩
  exact runBatch_length env cfg cfg.emailList 0

/-- C8: an empty template file is treated exactly like a missing one: the
guard `if not html_content` is falsy for the empty string as it is for
`None`, so the attempt returns failure with no transport connection
attempted — indeed the whole outcome coincides with the missing-file one. -/
theorem claim_empty_template_like_missing (cfg : Config) (tr : Transport)
    (r : String) :
    send_newsletter cfg (.content "") tr r = send_newsletter cfg .fileNotFound tr r
    ∧ (send_newsletter cfg (.content "") tr r).success = false
    ∧ (send_newsletter cfg (.content "") tr r).connectAttempted = false :=
  ⟨rfl, rfl, rfl⟩

/-- C9: a non-UTF-8 template propagates out of `read_html_template` (which
catches only the file-not-found error) and lands in the generic
`except Exception` handler: the attempt fails with the unexpected reason —
not the template-unavailable one — and no connection is attempted. -/
theorem claim_decode_error_unexpected (cfg : Config) (tr : Transport)
    (r : String) :
    (send_newsletter cfg .decodeError tr r).success = false
    ∧ (send_newsletter cfg .decodeError tr r).reason = some .unexpected
    ∧ ¬ (send_newsletter cfg .decodeError tr r).reason = some .templateUnavailable
    ∧ (send_newsletter cfg .decodeError tr r).connectAttempted = false := by
  refine ⟨rfl, rfl, ?_, rfl⟩
  intro h
  simp [send_newsletter, run_try, read_html_template, dispatch] at h

/-- C10: no operation writes the module-level configuration: the source
assigns no module global, so the embedding threads the module state
through the batch loop and `main` returns it unchanged — in particular the
recipient list, sender address, display name, credential and subject keep
their initial values, and the only accumulating state is the counter pair. -/
theorem claim_config_unchanged (cfg : Config) (env : Env) :
    (main cfg env).2 = cfg := by
  show (runBatch env cfg cfg.emailList 0).2 = cfg
  exact runBatch_state env cfg cfg.emailList 0

end Marketing
